import Mathlib

/-!
Shallow embedding of the FFI native-type model declared in
`runtime/vm/compiler/ffi/native_type.h`.

The header declares the `PrimitiveType` enumeration, the `NativeType`
variant contract (with `NativePrimitiveType` as its only concrete
variant), the `NativeFunctionType` aggregate, and the lowering factories.
The member-function bodies live in `native_type.cc`, which is not part of
the visible sources; those bodies are modelled from the spec (each such
definition says so in its doc comment).  Fatal `UNREACHABLE` paths are
modelled as `Option.none` / `Except.error`, so a `none` result stands for
a loud assertion failure, never for a sentinel value the program could
observe.
-/

namespace Ffi

/-- The `PrimitiveType` enumeration of `native_type.h` (lines 121-135):
the twelve native primitive kinds, `kHalfDouble` being the transient tag
produced when a double is split over two 32-bit locations. -/
inductive PrimitiveType : Type where
  | kInt8
  | kUint8
  | kInt16
  | kUint16
  | kInt32
  | kUint32
  | kInt64
  | kUint64
  | kFloat
  | kDouble
  | kHalfDouble
  | kVoid
  deriving DecidableEq, Fintype

/-- The `NativeType` hierarchy as a closed sum.  `NativePrimitiveType`,
carrying one immutable `PrimitiveType` field, is the only concrete
variant in the source (composites are explicitly future work), so the
sum has a single case. -/
inductive NativeType : Type where
  | primitive (representation : PrimitiveType)
  deriving DecidableEq, Fintype

/-- Modelled from the spec: the body of `NativePrimitiveType::SizeInBytes`
is in the absent `native_type.cc`; sizes follow the table of spec §4.2. -/
def PrimitiveType.sizeInBytes : PrimitiveType → Nat
  | .kInt8 => 1
  | .kUint8 => 1
  | .kInt16 => 2
  | .kUint16 => 2
  | .kInt32 => 4
  | .kUint32 => 4
  | .kInt64 => 8
  | .kUint64 => 8
  | .kFloat => 4
  | .kDouble => 8
  | .kHalfDouble => 4
  | .kVoid => 0

/-- Modelled from the spec: the body of `NativePrimitiveType::IsInt` is in
the absent `native_type.cc`; the eight fixed-width integer tags classify
as integers (spec §4.2). -/
def PrimitiveType.isInt : PrimitiveType → Bool
  | .kInt8 => true
  | .kUint8 => true
  | .kInt16 => true
  | .kUint16 => true
  | .kInt32 => true
  | .kUint32 => true
  | .kInt64 => true
  | .kUint64 => true
  | .kFloat => false
  | .kDouble => false
  | .kHalfDouble => false
  | .kVoid => false

/-- Modelled from the spec: the body of `NativePrimitiveType::IsFloat` is
in the absent `native_type.cc`; float, double and half-double classify as
floats (spec §4.2). -/
def PrimitiveType.isFloat : PrimitiveType → Bool
  | .kFloat => true
  | .kDouble => true
  | .kHalfDouble => true
  | _ => false

/-- Modelled from the spec: the body of `NativePrimitiveType::IsVoid` is
in the absent `native_type.cc`; only `kVoid` classifies as void. -/
def PrimitiveType.isVoid : PrimitiveType → Bool
  | .kVoid => true
  | _ => false

/-- Modelled from the spec: the body of `NativePrimitiveType::IsSigned` is
in the absent `native_type.cc`; the four signed integer tags are signed,
everything else (unsigned integers, floats, void) reports false, matching
the base-class default of `native_type.h` line 73. -/
def PrimitiveType.isSigned : PrimitiveType → Bool
  | .kInt8 => true
  | .kInt16 => true
  | .kInt32 => true
  | .kInt64 => true
  | _ => false

/-- Modelled from the spec: the body of
`NativePrimitiveType::AlignmentInBytesField` is in the absent
`native_type.cc`; field alignment equals size for every tag, with void
having no alignment (zero), per spec §4.2. -/
def PrimitiveType.alignmentInBytesField : PrimitiveType → Nat
  | .kInt8 => 1
  | .kUint8 => 1
  | .kInt16 => 2
  | .kUint16 => 2
  | .kInt32 => 4
  | .kUint32 => 4
  | .kInt64 => 8
  | .kUint64 => 8
  | .kFloat => 4
  | .kDouble => 8
  | .kHalfDouble => 4
  | .kVoid => 0

/-- Modelled from the spec: the body of `NativePrimitiveType::Equals` is
in the absent `native_type.cc`; two native types are equal iff both are
primitives carrying the identical tag (spec §4.2).  The base-class
default (`native_type.h` line 100) is fatal for a variant that does not
define equality, but the primitive variant — the only concrete one —
defines it for every pair. -/
def NativeType.equals : NativeType → NativeType → Bool
  | .primitive a, .primitive b => a == b

/-- Modelled from the spec: the body of `NativePrimitiveType::Split` is in
the absent `native_type.cc`; per spec §4.2 a double splits into two
half-doubles, int64/uint64 split into an unsigned low word and a high
word of the original signedness, and every other tag or index is fatal
(`none` models the `UNREACHABLE` path). -/
def PrimitiveType.split : PrimitiveType → Nat → Option PrimitiveType
  | .kDouble, 0 => some .kHalfDouble
  | .kDouble, 1 => some .kHalfDouble
  | .kInt64, 0 => some .kUint32
  | .kInt64, 1 => some .kInt32
  | .kUint64, 0 => some .kUint32
  | .kUint64, 1 => some .kUint32
  | _, _ => none

/-- Modelled from the spec: the body of `NativeType::WidenTo4Bytes` is in
the absent `native_type.cc`; per spec §4.4 (and the header comment at
`native_type.h` lines 105-106) a sub-4-byte integer widens to the 4-byte
container of matching signedness, and everything else is unchanged. -/
def PrimitiveType.widenTo4Bytes (t : PrimitiveType) : PrimitiveType :=
  if t.isInt && decide (t.sizeInBytes < 4) then
    if t.isSigned then .kInt32 else .kUint32
  else t

/-- Modelled from the spec: the compiler's internal unboxed-value
`Representation` enumeration lives in `locations.h`, which is absent from
the sources.  Per spec §4.1/§4.4 the unboxed model has no representation
narrower than 4 bytes, so it covers exactly the 4-byte-and-wider value
kinds the expressible tags map onto. -/
inductive Representation : Type where
  | unboxedInt32
  | unboxedUint32
  | unboxedInt64
  | unboxedUint64
  | unboxedFloat
  | unboxedDouble
  deriving DecidableEq, Fintype

/-- Modelled from the spec: the body of
`NativePrimitiveType::IsExpressibleAsRepresentation` is in the absent
`native_type.cc`; per spec §4.2 and §4.4 half-double and void are not
expressible, and narrow (sub-4-byte) integers are never themselves
expressible. -/
def PrimitiveType.isExpressibleAsRepresentation : PrimitiveType → Bool
  | .kInt32 => true
  | .kUint32 => true
  | .kInt64 => true
  | .kUint64 => true
  | .kFloat => true
  | .kDouble => true
  | _ => false

/-- Modelled from the spec: the body of
`NativePrimitiveType::AsRepresentation` is in the absent
`native_type.cc`; each expressible tag maps to the unboxed representation
with the same bit-pattern meaning, and a non-expressible tag is fatal
(`none` models the `UNREACHABLE` path of `native_type.h` line 91). -/
def PrimitiveType.asRepresentation : PrimitiveType → Option Representation
  | .kInt32 => some .unboxedInt32
  | .kUint32 => some .unboxedUint32
  | .kInt64 => some .unboxedInt64
  | .kUint64 => some .unboxedUint64
  | .kFloat => some .unboxedFloat
  | .kDouble => some .unboxedDouble
  | _ => none

/-- Modelled from the spec: the body of
`NativeType::FromUnboxedRepresentation` is in the absent
`native_type.cc`; per spec §4.1 it is the inverse-style mapping producing
the primitive `NativeType` carrying the same bit-pattern meaning. -/
def NativeType.fromUnboxedRepresentation : Representation → NativeType
  | .unboxedInt32 => .primitive .kInt32
  | .unboxedUint32 => .primitive .kUint32
  | .unboxedInt64 => .primitive .kInt64
  | .unboxedUint64 => .primitive .kUint64
  | .unboxedFloat => .primitive .kFloat
  | .unboxedDouble => .primitive .kDouble

/-- `NativeType::AsRepresentationOverApprox`, defined inline in
`native_type.h` lines 94-97: widen to 4 bytes, then map to the unboxed
representation. -/
def PrimitiveType.asRepresentationOverApprox (t : PrimitiveType) : Option Representation :=
  t.widenTo4Bytes.asRepresentation

/-- Modelled from the spec: the host language's static type descriptors
(`AbstractType`, declared in the absent `object.h`).  The fixed
FFI-representable set of spec §4.1 — fixed-width integers, floats,
doubles, pointer-like types collapsed to an integer width, and void —
plus a case for every other host type, identified by name. -/
inductive AbstractType : Type where
  | ffiInt8
  | ffiUint8
  | ffiInt16
  | ffiUint16
  | ffiInt32
  | ffiUint32
  | ffiInt64
  | ffiUint64
  | ffiFloat
  | ffiDouble
  | ffiPointer
  | ffiVoid
  | unrepresentable (name : String)
  deriving DecidableEq

/-- Modelled from the spec: the body of `NativeType::FromAbstractType` is
in the absent `native_type.cc`; per spec §4.1/§7 it maps the fixed
FFI-representable set to the corresponding primitive tag (pointer-like
types collapse to the target's integer word width) and fails — without
constructing a `NativeType` — with an "unsupported FFI type" condition
for anything else. -/
def NativeType.fromAbstractType : AbstractType → Except String NativeType
  | .ffiInt8 => .ok (.primitive .kInt8)
  | .ffiUint8 => .ok (.primitive .kUint8)
  | .ffiInt16 => .ok (.primitive .kInt16)
  | .ffiUint16 => .ok (.primitive .kUint16)
  | .ffiInt32 => .ok (.primitive .kInt32)
  | .ffiUint32 => .ok (.primitive .kUint32)
  | .ffiInt64 => .ok (.primitive .kInt64)
  | .ffiUint64 => .ok (.primitive .kUint64)
  | .ffiFloat => .ok (.primitive .kFloat)
  | .ffiDouble => .ok (.primitive .kDouble)
  | .ffiPointer => .ok (.primitive .kInt64)
  | .ffiVoid => .ok (.primitive .kVoid)
  | .unrepresentable _ => .error "unsupported FFI type"

/-- Modelled from the spec: the body of `NativeType::FromTypedDataClassId`
is in the absent `native_type.cc`; per spec §4.1/§6 it is a fixed,
deterministic, injective table from the small stable storage-class
identifiers — one per primitive kind, the transient half-double tag never
being an input — and any identifier outside the enumerated domain is a
fatal internal-bug condition (`none` models the `UNREACHABLE` path). -/
def NativeType.fromTypedDataClassId : Nat → Option NativeType
  | 0 => some (.primitive .kInt8)
  | 1 => some (.primitive .kUint8)
  | 2 => some (.primitive .kInt16)
  | 3 => some (.primitive .kUint16)
  | 4 => some (.primitive .kInt32)
  | 5 => some (.primitive .kUint32)
  | 6 => some (.primitive .kInt64)
  | 7 => some (.primitive .kUint64)
  | 8 => some (.primitive .kFloat)
  | 9 => some (.primitive .kDouble)
  | _ => none

/-- `NativeFunctionType`, defined inline in `native_type.h` lines 179-197:
an immutable aggregate of the ordered argument types and the return type,
exposing only const accessors (and rendering). -/
structure NativeFunctionType : Type where
  argument_types : List NativeType
  return_type : NativeType
  deriving DecidableEq

/-- C1: for every splittable 8-byte primitive tag and index in 0, 1:
splitting a double at either index yields half-double (size 4); splitting
int64 yields an unsigned 4-byte low half and a signed 4-byte high half;
splitting uint64 yields unsigned 4-byte halves at both indices; and in
every such case the two halves' sizes sum to 8 bytes. -/
theorem split_eight_byte_table :
    PrimitiveType.kDouble.split 0 = some .kHalfDouble ∧
    PrimitiveType.kDouble.split 1 = some .kHalfDouble ∧
    PrimitiveType.kHalfDouble.sizeInBytes = 4 ∧
    PrimitiveType.kInt64.split 0 = some .kUint32 ∧
    PrimitiveType.kInt64.split 1 = some .kInt32 ∧
    PrimitiveType.kUint64.split 0 = some .kUint32 ∧
    PrimitiveType.kUint64.split 1 = some .kUint32 ∧
    (PrimitiveType.kUint32.isInt = true ∧ PrimitiveType.kUint32.isSigned = false ∧
      PrimitiveType.kUint32.sizeInBytes = 4) ∧
    (PrimitiveType.kInt32.isInt = true ∧ PrimitiveType.kInt32.isSigned = true ∧
      PrimitiveType.kInt32.sizeInBytes = 4) ∧
    (∀ t i a b, (t = PrimitiveType.kInt64 ∨ t = .kUint64 ∨ t = .kDouble) →
      (i = 0 ∨ i = 1) → t.split i = some a → t.split i = some b →
      a.sizeInBytes + b.sizeInBytes = 8) := by
  refine ⟨rfl, rfl, rfl, rfl, rfl, rfl, rfl, by decide, by decide, ?_⟩
  rintro t i a b (rfl | rfl | rfl) (rfl | rfl) ha hb <;>
    simp [PrimitiveType.split] at ha hb <;> subst ha <;> subst hb <;> rfl

/-- Witness for C1's universally quantified summing clause at concrete
inputs: both halves of a split double sum to 8 bytes. -/
theorem split_eight_byte_table_witness :
    PrimitiveType.kHalfDouble.sizeInBytes + PrimitiveType.kHalfDouble.sizeInBytes = 8 :=
  split_eight_byte_table.2.2.2.2.2.2.2.2.2 .kDouble 0 .kHalfDouble .kHalfDouble
    (Or.inr (Or.inr rfl)) (Or.inl rfl) rfl rfl

/-- C2: an integer type narrower than 4 bytes widens to the 4-byte integer
primitive of the same signedness; every other type (4-byte-or-larger
integers, floats, doubles, void) is returned unchanged. -/
theorem widenTo4Bytes_behaviour (t : PrimitiveType) :
    (t.isInt = true → t.sizeInBytes < 4 →
      t.widenTo4Bytes.isInt = true ∧ t.widenTo4Bytes.sizeInBytes = 4 ∧
        t.widenTo4Bytes.isSigned = t.isSigned) ∧
    (¬ (t.isInt = true ∧ t.sizeInBytes < 4) → t.widenTo4Bytes = t) := by
  cases t <;> exact ⟨by decide, by decide⟩

/-- Witness for C2 at concrete inputs: int8 widens to a signed 4-byte
integer, and double is left unchanged. -/
theorem widenTo4Bytes_behaviour_witness :
    (PrimitiveType.kInt8.widenTo4Bytes.isInt = true ∧
      PrimitiveType.kInt8.widenTo4Bytes.sizeInBytes = 4 ∧
      PrimitiveType.kInt8.widenTo4Bytes.isSigned = PrimitiveType.kInt8.isSigned) ∧
    PrimitiveType.kDouble.widenTo4Bytes = PrimitiveType.kDouble :=
  ⟨(widenTo4Bytes_behaviour .kInt8).1 (by decide) (by decide),
   (widenTo4Bytes_behaviour .kDouble).2 (by decide)⟩

/-- C3: `sizeInBytes` returns exactly the value of the table of spec §4.2
for every one of the twelve tags; void's size is 0. -/
theorem sizeInBytes_table :
    PrimitiveType.kInt8.sizeInBytes = 1 ∧ PrimitiveType.kUint8.sizeInBytes = 1 ∧
    PrimitiveType.kInt16.sizeInBytes = 2 ∧ PrimitiveType.kUint16.sizeInBytes = 2 ∧
    PrimitiveType.kInt32.sizeInBytes = 4 ∧ PrimitiveType.kUint32.sizeInBytes = 4 ∧
    PrimitiveType.kInt64.sizeInBytes = 8 ∧ PrimitiveType.kUint64.sizeInBytes = 8 ∧
    PrimitiveType.kFloat.sizeInBytes = 4 ∧ PrimitiveType.kDouble.sizeInBytes = 8 ∧
    PrimitiveType.kHalfDouble.sizeInBytes = 4 ∧ PrimitiveType.kVoid.sizeInBytes = 0 := by
  decide

/-- C4: for every tag except void, field alignment equals size. -/
theorem alignmentField_eq_size (t : PrimitiveType) (h : t ≠ PrimitiveType.kVoid) :
    t.alignmentInBytesField = t.sizeInBytes := by
  cases t <;> rfl

/-- Witness for C4 at a concrete input: double's field alignment equals
its size. -/
theorem alignmentField_eq_size_witness :
    PrimitiveType.kDouble.alignmentInBytesField = PrimitiveType.kDouble.sizeInBytes :=
  alignmentField_eq_size .kDouble (by decide)

/-- C5: lowering any host-language static type descriptor outside the
fixed FFI-representable mapping fails with the recoverable,
caller-visible "unsupported FFI type" condition and constructs no
`NativeType`. -/
theorem fromAbstractType_unsupported (s : String) :
    NativeType.fromAbstractType (.unrepresentable s) = .error "unsupported FFI type" ∧
    ∀ t : NativeType, NativeType.fromAbstractType (.unrepresentable s) ≠ .ok t := by
  refine ⟨rfl, ?_⟩
  intro t h
  exact Except.noConfusion h

/-- Witness for C5 at a concrete input: a host type named "Object" is
rejected and yields no `NativeType`. -/
theorem fromAbstractType_unsupported_witness :
    NativeType.fromAbstractType (.unrepresentable "Object") ≠
      Except.ok (NativeType.primitive .kVoid) :=
  (fromAbstractType_unsupported "Object").2 (NativeType.primitive .kVoid)

/-- C6: primitive-type equality is reflexive and symmetric, and it
distinguishes the twelve tags pairwise: `equals` is true exactly when
both primitives carry the identical tag. -/
theorem equals_structural :
    (∀ a : NativeType, a.equals a = true) ∧
    (∀ a b : NativeType, a.equals b = b.equals a) ∧
    (∀ x y : PrimitiveType,
      ((NativeType.primitive x).equals (NativeType.primitive y) = true ↔ x = y)) := by
  decide

/-- C7: for every tag expressible as an internal unboxed representation,
converting the tag to its representation and lowering that representation
back through `fromUnboxedRepresentation` yields the primitive type with
the original tag. -/
theorem representation_roundtrip (t : PrimitiveType)
    (h : t.isExpressibleAsRepresentation = true) :
    ∃ r, t.asRepresentation = some r ∧
      NativeType.fromUnboxedRepresentation r = NativeType.primitive t := by
  cases t <;> first
    | exact ⟨_, rfl, rfl⟩
    | exact absurd h (by decide)

/-- Witness for C7 at a concrete input: int32 round-trips through its
unboxed representation. -/
theorem representation_roundtrip_witness :
    ∃ r, PrimitiveType.kInt32.asRepresentation = some r ∧
      NativeType.fromUnboxedRepresentation r = NativeType.primitive .kInt32 :=
  representation_roundtrip .kInt32 (by decide)

/-- C8: every operation invoked outside its defined domain is fatal
(modelled by `none`) rather than returning a value: splitting any tag
other than the 8-byte ones or with an index outside 0, 1;
`asRepresentation` on a non-expressible tag; and lowering a storage-class
identifier outside the enumerated table. -/
theorem out_of_domain_fatal :
    (∀ (t : PrimitiveType) (i : Nat),
      ¬ ((t = PrimitiveType.kInt64 ∨ t = .kUint64 ∨ t = .kDouble) ∧ (i = 0 ∨ i = 1)) →
      t.split i = none) ∧
    (∀ t : PrimitiveType, t.isExpressibleAsRepresentation = false →
      t.asRepresentation = none) ∧
    (∀ cid : Nat, 10 ≤ cid → NativeType.fromTypedDataClassId cid = none) := by
  refine ⟨?_, ?_, ?_⟩
  · intro t i h
    rcases i with - | - | n
    · cases t <;> first | rfl | exact absurd ⟨by decide, by decide⟩ h
    · cases t <;> first | rfl | exact absurd ⟨by decide, by decide⟩ h
    · cases t <;> rfl
  · intro t
    cases t <;> decide
  · intro cid h
    rcases cid with - | - | - | - | - | - | - | - | - | - | n
    all_goals first | rfl | exact absurd h (by omega)

/-- Witness for C8 at concrete inputs: splitting a float, taking the
representation of half-double, and lowering storage-class id 42 are all
fatal. -/
theorem out_of_domain_fatal_witness :
    PrimitiveType.kFloat.split 0 = none ∧
    PrimitiveType.kHalfDouble.asRepresentation = none ∧
    NativeType.fromTypedDataClassId 42 = none :=
  ⟨out_of_domain_fatal.1 .kFloat 0 (by decide),
   out_of_domain_fatal.2.1 .kHalfDouble (by decide),
   out_of_domain_fatal.2.2 42 (by omega)⟩

/-- C9: two `NativeFunctionType` signatures are equal exactly when their
argument sequences are element-wise equal (same length, same order in the
original positions) and their return types are equal. -/
theorem functionType_equality_structural (f g : NativeFunctionType) :
    f = g ↔
      (f.argument_types.length = g.argument_types.length ∧
       (∀ (i : Nat) (h1 : i < f.argument_types.length)
          (h2 : i < g.argument_types.length),
          f.argument_types.get ⟨i, h1⟩ = g.argument_types.get ⟨i, h2⟩) ∧
       f.return_type = g.return_type) := by
  constructor
  · rintro rfl
    exact ⟨rfl, fun i h1 h2 => rfl, rfl⟩
  · rintro ⟨hlen, hget, hret⟩
    cases f with
    | mk fargs fret =>
      cases g with
      | mk gargs gret =>
        have hargs : fargs = gargs := List.ext_get hlen hget
        cases hargs
        cases hret
        rfl

/-- Witness for C9 at concrete inputs: the characterisation instantiated
for the signature (int32) with return type void against itself. -/
theorem functionType_equality_structural_witness :
    NativeFunctionType.mk [NativeType.primitive .kInt32] (NativeType.primitive .kVoid) =
        NativeFunctionType.mk [NativeType.primitive .kInt32] (NativeType.primitive .kVoid) ↔
      ((NativeFunctionType.mk [NativeType.primitive .kInt32]
          (NativeType.primitive .kVoid)).argument_types.length =
        (NativeFunctionType.mk [NativeType.primitive .kInt32]
          (NativeType.primitive .kVoid)).argument_types.length ∧
       (∀ (i : Nat)
          (h1 : i < (NativeFunctionType.mk [NativeType.primitive .kInt32]
            (NativeType.primitive .kVoid)).argument_types.length)
          (h2 : i < (NativeFunctionType.mk [NativeType.primitive .kInt32]
            (NativeType.primitive .kVoid)).argument_types.length),
          (NativeFunctionType.mk [NativeType.primitive .kInt32]
            (NativeType.primitive .kVoid)).argument_types.get ⟨i, h1⟩ =
          (NativeFunctionType.mk [NativeType.primitive .kInt32]
            (NativeType.primitive .kVoid)).argument_types.get ⟨i, h2⟩) ∧
       (NativeFunctionType.mk [NativeType.primitive .kInt32]
          (NativeType.primitive .kVoid)).return_type =
        (NativeFunctionType.mk [NativeType.primitive .kInt32]
          (NativeType.primitive .kVoid)).return_type) :=
  functionType_equality_structural
    (NativeFunctionType.mk [NativeType.primitive .kInt32] (NativeType.primitive .kVoid))
    (NativeFunctionType.mk [NativeType.primitive .kInt32] (NativeType.primitive .kVoid))

/-- C10: a `NativeFunctionType` built from an argument sequence and a
return type hands back exactly that sequence, in order, and exactly that
return type; in this embedding the aggregate is an immutable value, so no
operation can change them after construction. -/
theorem functionType_accessors (args : List NativeType) (ret : NativeType) :
    (NativeFunctionType.mk args ret).argument_types = args ∧
    (NativeFunctionType.mk args ret).return_type = ret :=
  ⟨rfl, rfl⟩

end Ffi
